import Mathlib

/-!
Verification development for the langgraph-ecommerce repository.

The definitions below are a shallow embedding of the Python sources:

* `src/graphs/manual_rag_workflow.py` — the retrieve/grade/rewrite/answer loop
* `src/agents/rag.py`                 — `RAGAgent` (grading, question rewriting)
* `src/agents/intent_classifier.py`   — `IntentClassifierAgent`
* `src/services/context_service.py`   — `ContextService`
* `src/models/session_context.py`     — `SessionContext`
* `src/graphs/nodes.py`               — dispatch-graph node functions
* `src/api/routes/chat.py`            — the chat HTTP route
* `src/agents/payment.py`             — `PaymentAgent`

External collaborators (the similarity retriever, the LLM, the order
database, the payment backend) are passed in as explicit function
parameters, mirroring the call boundaries of the source.  Python floats
are modelled as rationals; timestamps as natural numbers.
-/

namespace LGE

/-! ## String helpers

Python substring tests (`needle in hay`) and ASCII case folding, used by
several agents.  `String.toLower` folds ASCII letters exactly as the
classifier's keyword matching needs. -/

/-- Boolean prefix test on character lists. -/
def chPre : List Char → List Char → Bool
  | [], _ => true
  | _ :: _, [] => false
  | a :: as, b :: bs => a = b && chPre as bs

/-- Boolean substring test on character lists (`needle`, then `hay`). -/
def chSub (needle : List Char) : List Char → Bool
  | [] => chPre needle []
  | c :: cs => chPre needle (c :: cs) || chSub needle cs

/-- Python's `needle in hay` on strings. -/
def strContains (hay needle : String) : Bool :=
  chSub needle.toList hay.toList

/-- Python's `str.lower()` (ASCII case folding, as in the source's
keyword matching). -/
def strLower (s : String) : String := String.mk (s.toList.map Char.toLower)

/-! ## Documents and score-based grading
(`src/graphs/manual_rag_workflow.py`) -/

/-- A retrieved document: `page_content`, `metadata["source"]`, and the
optional `metadata["score"]` (absent when the retriever attaches no
similarity score). -/
structure Document where
  page_content : String
  source : String
  score : Option ℚ
deriving Repr, DecidableEq

/-- `doc.metadata.get("score", 0)` from `grade_documents_by_score`. -/
def scoreOf (d : Document) : ℚ := d.score.getD 0

/-- `MAX_RETRIES = 3` (`manual_rag_workflow.py`, `rag_workflow.py`). -/
def MAX_RETRIES : ℕ := 3

/-- `Settings.rag_similarity_threshold` default (`src/core/config.py`):
`0.35`, "Lower for LM Studio embeddings". -/
def rag_similarity_threshold : ℚ := 35 / 100

/-- The manual workflow's `SIMILARITY_THRESHOLD = settings.rag_similarity_threshold`. -/
def SIMILARITY_THRESHOLD : ℚ := rag_similarity_threshold

/-- Arithmetic mean of the documents' scores. -/
def meanScore (documents : List Document) : ℚ :=
  (documents.map scoreOf).sum / (documents.length : ℚ)

/-- `grade_documents_by_score(documents, threshold)`: `False` on an empty
list, otherwise `avg_score >= threshold` with each missing score read as
`0`.  (The Python parameter default is `threshold=0.6`; the workflow
always passes the configured threshold.) -/
def grade_documents_by_score (documents : List Document) (threshold : ℚ) : Bool :=
  if documents.isEmpty then false
  else decide (threshold ≤ (documents.map scoreOf).sum / (documents.length : ℚ))

/-- Targets of the manual workflow's grading conditional edge. -/
inductive GradeDecision
  | generate_answer
  | rewrite_question
  | no_answer
deriving Repr, DecidableEq

/-- `grade_documents(state)` of the manual RAG workflow: empty documents
or exhausted retries force `no_answer`; otherwise the score grade picks
between `generate_answer` and `rewrite_question`. -/
def grade_documents (documents : List Document) (retry_count : ℕ) (threshold : ℚ) :
    GradeDecision :=
  if documents.isEmpty then .no_answer
  else if MAX_RETRIES ≤ retry_count then .no_answer
  else if grade_documents_by_score documents threshold then .generate_answer
  else .rewrite_question

/-- The workflow's grade decision with its deployed threshold. -/
def workflow_grade (documents : List Document) (retry_count : ℕ) : GradeDecision :=
  grade_documents documents retry_count SIMILARITY_THRESHOLD

/-! ## The manual RAG workflow loop

State of `ManualRAGState`: the `messages` list only ever feeds the loop
through the last message's content (`messages[-1].content`), kept here as
`query`; `retry_count`; `documents`. -/

structure ManualRAGState where
  query : String
  retry_count : ℕ
  documents : List Document
deriving Repr, DecidableEq

/-- Initial state built by `src/api/routes/rag.py` (`retry_count: 0`). -/
def initial_rag_state (q : String) : ManualRAGState :=
  { query := q, retry_count := 0, documents := [] }

/-- Node `retrieve_documents`: replace `documents` with the retriever's
result for the current query. -/
def retrieve_documents (retriever : String → List Document) (s : ManualRAGState) :
    ManualRAGState :=
  { s with documents := retriever s.query }

/-- Node `rewrite_question`: replace the last message with the rewritten
query and increment `retry_count` by one. -/
def rewrite_question_node (rewriter : String → String) (s : ManualRAGState) :
    ManualRAGState :=
  { s with query := rewriter s.query, retry_count := s.retry_count + 1 }

/-- `RAGAgent.rewrite_question` (`src/agents/rag.py`): skipped (returns
the query unchanged) when `use_llm_rewriting` is off; otherwise the LLM's
stripped content, falling back to the original query when the call
raises (`llm q = none`). -/
def rag_agent_rewrite_question (use_llm_rewriting : Bool)
    (llm : String → Option String) (query : String) : String :=
  if !use_llm_rewriting then query
  else
    match llm query with
    | some content => content.trim
    | none => query

/-- One compiled-graph run: `retrieve` then the grading conditional edge;
`rewrite_question` loops back to `retrieve`, the other targets are
terminal.  `fuel` bounds the recursion; the retry limit makes
`MAX_RETRIES + 1` rounds always enough (proved below). -/
def manual_rag_run (retriever : String → List Document) (rewriter : String → String)
    (threshold : ℚ) : ℕ → ManualRAGState → Option (GradeDecision × ManualRAGState)
  | 0, _ => none
  | fuel + 1, s =>
    let s1 := retrieve_documents retriever s
    match grade_documents s1.documents s1.retry_count threshold with
    | .rewrite_question =>
        manual_rag_run retriever rewriter threshold fuel (rewrite_question_node rewriter s1)
    | d => some (d, s1)

/-- `RAGAgent.grade_documents` (`src/agents/rag.py`, tool-based path),
as a function of the score list its `_extract_scores` regex recovers
from the formatted documents string: no scores at all defaults to
relevant (`True`); otherwise mean-vs-threshold. -/
def rag_agent_grade_documents (scores : List ℚ) (similarity_threshold : ℚ) : Bool :=
  if scores.isEmpty then true
  else decide (similarity_threshold ≤ scores.sum / (scores.length : ℚ))

end LGE

namespace LGE

/-! ## Workflow lemmas -/

theorem grade_rewrite_lt_max {documents : List Document} {retry_count : ℕ} {θ : ℚ}
    (h : grade_documents documents retry_count θ = .rewrite_question) :
    retry_count < MAX_RETRIES := by
  by_contra hge
  push_neg at hge
  unfold grade_documents at h
  by_cases he : documents.isEmpty <;> simp [he, hge] at h

theorem manual_rag_run_retry_le (r : String → List Document) (rw : String → String)
    (θ : ℚ) : ∀ fuel s out, manual_rag_run r rw θ fuel s = some out →
    out.2.retry_count ≤ max s.retry_count MAX_RETRIES := by
  intro fuel
  induction fuel with
  | zero => intro s out h; simp [manual_rag_run] at h
  | succ n ih =>
    intro s out h
    rw [manual_rag_run] at h
    cases hg : grade_documents (retrieve_documents r s).documents
        (retrieve_documents r s).retry_count θ with
    | rewrite_question =>
      rw [hg] at h
      have hlt : s.retry_count < MAX_RETRIES := grade_rewrite_lt_max hg
      have hrec := ih _ _ h
      have hstep : (rewrite_question_node rw (retrieve_documents r s)).retry_count
          = s.retry_count + 1 := rfl
      rw [hstep] at hrec
      omega
    | generate_answer =>
      rw [hg] at h
      simp at h
      subst h
      exact le_max_left _ _
    | no_answer =>
      rw [hg] at h
      simp at h
      subst h
      exact le_max_left _ _

theorem manual_rag_run_isSome (r : String → List Document) (rw : String → String)
    (θ : ℚ) : ∀ fuel s, 1 ≤ fuel → MAX_RETRIES + 1 ≤ s.retry_count + fuel →
    (manual_rag_run r rw θ fuel s).isSome = true := by
  intro fuel
  induction fuel with
  | zero => omega
  | succ n ih =>
    intro s _ hbound
    rw [manual_rag_run]
    cases hg : grade_documents (retrieve_documents r s).documents
        (retrieve_documents r s).retry_count θ with
    | rewrite_question =>
      have hlt : s.retry_count < MAX_RETRIES := grade_rewrite_lt_max hg
      apply ih
      · omega
      · show MAX_RETRIES + 1 ≤ (rewrite_question_node rw (retrieve_documents r s)).retry_count + n
        have hstep : (rewrite_question_node rw (retrieve_documents r s)).retry_count
            = s.retry_count + 1 := rfl
        rw [hstep]
        omega
    | generate_answer => simp
    | no_answer => simp

end LGE

namespace LGE

/-! ## Claims about grading and the retry loop -/

/-- Claim C3 (counterexample): the workflow's grade decision runs with the
configured threshold, whose default is `0.35`, not `0.6`; under that
default, scores `[0.5, 0.5]` already pass the gate and the decision is
`generate_answer`, where the claim (threshold `0.6`) requires
`rewrite_question`. -/
theorem C3_default_threshold_counterexample :
    workflow_grade [⟨"c1", "s1", some (1/2)⟩, ⟨"c2", "s2", some (1/2)⟩] 0 =
      GradeDecision.generate_answer ∧ SIMILARITY_THRESHOLD ≠ 6/10 := by
  constructor
  · norm_num [workflow_grade, grade_documents, grade_documents_by_score,
      SIMILARITY_THRESHOLD, rag_similarity_threshold, scoreOf, MAX_RETRIES]
  · norm_num [SIMILARITY_THRESHOLD, rag_similarity_threshold]

/-- Claim C3 (amended): the grade decision, as a function of
`(documents, retry_count, threshold)`, is exactly: empty documents →
`no_answer`; else `retry_count ≥ MAX_RETRIES` → `no_answer`; else
mean score ≥ threshold → `generate_answer`, otherwise
`rewrite_question`.  The configured threshold defaults to `0.35`; with a
threshold of `0.6` the claim's two score examples hold as stated. -/
theorem C3_grade_decision :
    (∀ documents retry_count threshold,
        grade_documents documents retry_count threshold =
          if documents.isEmpty then GradeDecision.no_answer
          else if MAX_RETRIES ≤ retry_count then GradeDecision.no_answer
          else if threshold ≤ meanScore documents then GradeDecision.generate_answer
          else GradeDecision.rewrite_question) ∧
    SIMILARITY_THRESHOLD = 35/100 ∧
    grade_documents
        [⟨"c1", "s1", some (9/10)⟩, ⟨"c2", "s2", some (9/10)⟩, ⟨"c3", "s3", some (1/10)⟩]
        0 (6/10) = GradeDecision.generate_answer ∧
    grade_documents [⟨"c1", "s1", some (1/2)⟩, ⟨"c2", "s2", some (1/2)⟩] 0 (6/10) =
      GradeDecision.rewrite_question := by
  refine ⟨?_, rfl, ?_, ?_⟩
  · intro documents retry_count threshold
    unfold grade_documents grade_documents_by_score meanScore
    by_cases he : documents.isEmpty <;> simp [he]
  · norm_num [grade_documents, grade_documents_by_score, scoreOf, MAX_RETRIES]
  · norm_num [grade_documents, grade_documents_by_score, scoreOf, MAX_RETRIES]

/-- Claim C4: in every manual-workflow run started from the route's
initial state (`retry_count = 0`), the final `retry_count` never exceeds
`MAX_RETRIES = 3`; a grade decision with non-empty documents and
`retry_count ≥ MAX_RETRIES` is always `no_answer`; the rewrite node
increments `retry_count` by exactly one while the retrieve node leaves it
unchanged; and `MAX_RETRIES + 1` rounds always suffice for the run to
terminate with a result. -/
theorem C4_retry_bound :
    (∀ r rw θ fuel q out,
        manual_rag_run r rw θ fuel (initial_rag_state q) = some out →
        out.2.retry_count ≤ MAX_RETRIES) ∧
    (∀ documents retry_count θ, ¬documents.isEmpty = true → MAX_RETRIES ≤ retry_count →
        grade_documents documents retry_count θ = GradeDecision.no_answer) ∧
    (∀ rw s, (rewrite_question_node rw s).retry_count = s.retry_count + 1) ∧
    (∀ r s, (retrieve_documents r s).retry_count = s.retry_count) ∧
    (∀ r rw θ q,
        (manual_rag_run r rw θ (MAX_RETRIES + 1) (initial_rag_state q)).isSome = true) := by
  refine ⟨?_, ?_, fun _ _ => rfl, fun _ _ => rfl, ?_⟩
  · intro r rw θ fuel q out h
    have := manual_rag_run_retry_le r rw θ fuel (initial_rag_state q) out h
    simpa [initial_rag_state] using this
  · intro documents retry_count θ hne hge
    unfold grade_documents
    simp at hne
    simp [hne, hge]
  · intro r rw θ q
    exact manual_rag_run_isSome r rw θ (MAX_RETRIES + 1) (initial_rag_state q)
      (by simp [MAX_RETRIES]) (by simp [initial_rag_state])

/-- Witness for C4 at concrete inputs. -/
theorem C4_retry_bound_witness :
    ((GradeDecision.no_answer, (⟨"q", 0, []⟩ : ManualRAGState)) :
        GradeDecision × ManualRAGState).2.retry_count ≤ MAX_RETRIES ∧
    grade_documents [⟨"c", "s", some 1⟩] 3 (6/10) = GradeDecision.no_answer :=
  ⟨C4_retry_bound.1 (fun _ => []) id (6/10) 4 "q"
      (GradeDecision.no_answer, ⟨"q", 0, []⟩) (by decide),
   C4_retry_bound.2.1 [⟨"c", "s", some 1⟩] 3 (6/10) (by decide) (by decide)⟩

/-- Claim C5: with rewriting disabled, `RAGAgent.rewrite_question` is the
identity on the query; the workflow's rewrite node then keeps the query
and still increments `retry_count`, looping back to a retrieval on the
same query; total attempts stay bounded (the run still terminates within
`MAX_RETRIES + 1` rounds). -/
theorem C5_rewrite_disabled :
    (∀ llm q, rag_agent_rewrite_question false llm q = q) ∧
    (∀ llm s,
        (rewrite_question_node (rag_agent_rewrite_question false llm) s).query = s.query ∧
        (rewrite_question_node (rag_agent_rewrite_question false llm) s).retry_count =
          s.retry_count + 1) ∧
    (∀ r llm θ fuel s,
        grade_documents (r s.query) s.retry_count θ = GradeDecision.rewrite_question →
        manual_rag_run r (rag_agent_rewrite_question false llm) θ (fuel + 1) s =
          manual_rag_run r (rag_agent_rewrite_question false llm) θ fuel
            ⟨s.query, s.retry_count + 1, r s.query⟩) ∧
    (∀ r llm θ q,
        (manual_rag_run r (rag_agent_rewrite_question false llm) θ (MAX_RETRIES + 1)
          (initial_rag_state q)).isSome = true) := by
  refine ⟨fun _ _ => rfl, fun _ _ => ⟨rfl, rfl⟩, ?_, ?_⟩
  · intro r llm θ fuel s hg
    rw [manual_rag_run]
    have hg' : grade_documents (retrieve_documents r s).documents
        (retrieve_documents r s).retry_count θ = GradeDecision.rewrite_question := hg
    rw [hg']
    rfl
  · intro r llm θ q
    exact manual_rag_run_isSome r (rag_agent_rewrite_question false llm) θ
      (MAX_RETRIES + 1) (initial_rag_state q) (by simp [MAX_RETRIES])
      (by simp [initial_rag_state])

/-- Witness for C5 at concrete inputs. -/
theorem C5_rewrite_disabled_witness :
    manual_rag_run (fun _ => [⟨"c", "s", some 0⟩])
        (rag_agent_rewrite_question false (fun _ => some "better")) (6/10) 4
        (initial_rag_state "q") =
      manual_rag_run (fun _ => [⟨"c", "s", some 0⟩])
        (rag_agent_rewrite_question false (fun _ => some "better")) (6/10) 3
        ⟨"q", 0 + 1, [⟨"c", "s", some 0⟩]⟩ :=
  C5_rewrite_disabled.2.2.1 (fun _ => [⟨"c", "s", some 0⟩]) (fun _ => some "better")
    (6/10) 3 (initial_rag_state "q")
    (by norm_num [grade_documents, grade_documents_by_score, scoreOf, MAX_RETRIES,
      initial_rag_state])

/-- Claim C9 (counterexample): in the manual grading path a document
without a score is read as score `0`, so a scoreless retrieval result
fails the quality gate and the decision is `rewrite_question`, not
`generate_answer` as the claim states for every grading path. -/
theorem C9_scoreless_counterexample :
    workflow_grade [⟨"chunk", "kb", none⟩] 0 = GradeDecision.rewrite_question := by
  norm_num [workflow_grade, grade_documents, grade_documents_by_score, SIMILARITY_THRESHOLD,
    rag_similarity_threshold, scoreOf, MAX_RETRIES]

/-- Claim C9 (amended): only the tool-based path
(`RAGAgent.grade_documents`) defaults to relevant when no scores are
parseable; the manual path (`grade_documents_by_score`) reads each
missing score as `0`, so with any positive threshold scoreless documents
fail the gate and the decision can never be `generate_answer`. -/
theorem C9_scoreless_grading :
    (∀ threshold, rag_agent_grade_documents [] threshold = true) ∧
    (∀ documents threshold, documents ≠ [] → (∀ d ∈ documents, d.score = none) →
        0 < threshold → grade_documents_by_score documents threshold = false) ∧
    (∀ documents retry_count threshold, documents ≠ [] →
        (∀ d ∈ documents, d.score = none) → 0 < threshold →
        grade_documents documents retry_count threshold ≠ GradeDecision.generate_answer) := by
  have key : ∀ (documents : List Document) (threshold : ℚ), documents ≠ [] →
      (∀ d ∈ documents, d.score = none) → 0 < threshold →
      grade_documents_by_score documents threshold = false := by
    intro documents threshold hne hnone hpos
    unfold grade_documents_by_score
    have hz : (documents.map scoreOf).sum = 0 := by
      apply List.sum_eq_zero
      intro x hx
      obtain ⟨d, hd, hxd⟩ := List.mem_map.mp hx
      rw [← hxd]
      simp [scoreOf, hnone d hd]
    simp [List.isEmpty_iff, hne, hz]
    linarith
  refine ⟨fun _ => rfl, key, ?_⟩
  intro documents retry_count threshold hne hnone hpos
  have hb := key documents threshold hne hnone hpos
  unfold grade_documents
  rw [hb]
  by_cases he : documents.isEmpty <;> by_cases hr : MAX_RETRIES ≤ retry_count <;>
    simp [he, hr]

/-- Witness for C9 at concrete inputs. -/
theorem C9_scoreless_grading_witness :
    rag_agent_grade_documents [] (6/10) = true ∧
    grade_documents_by_score [⟨"chunk", "kb", none⟩] (6/10) = false ∧
    grade_documents [⟨"chunk", "kb", none⟩] 0 (6/10) ≠ GradeDecision.generate_answer :=
  ⟨C9_scoreless_grading.1 (6/10),
   C9_scoreless_grading.2.1 [⟨"chunk", "kb", none⟩] (6/10) (by decide) (by decide)
     (by norm_num),
   C9_scoreless_grading.2.2 [⟨"chunk", "kb", none⟩] 0 (6/10) (by decide) (by decide)
     (by norm_num)⟩

end LGE

namespace LGE

/-! ## JSON values

Parsed Python/JSON values, used for the product dictionaries held in the
session context and for the classifier's `json.loads` result. -/

inductive Json
  | jnull
  | jbool (b : Bool)
  | jnum (q : ℚ)
  | jstr (s : String)
  | jarr (elems : List Json)
  | jobj (fields : List (String × Json))

/-! ## Session context (`src/models/session_context.py`) -/

/-- `ConversationState` enum. -/
inductive ConversationState
  | browsing
  | selected
  | ordered
  | paying
  | completed
deriving Repr, DecidableEq

/-- `SessionContext` model; timestamps are abstract clock readings. -/
structure SessionContext where
  session_id : String
  last_viewed_products : List Json
  selected_product_id : Option String
  pending_order_id : Option String
  conversation_state : ConversationState
  last_updated : ℕ

/-- `SessionContext(session_id=...)`: all other fields take their pydantic
defaults, `last_updated` the current time. -/
def newSessionContext (session_id : String) (now : ℕ) : SessionContext :=
  { session_id := session_id
    last_viewed_products := []
    selected_product_id := none
    pending_order_id := none
    conversation_state := .browsing
    last_updated := now }

/-! ## Context service (`src/services/context_service.py`)

The `_storage` dict is modelled extensionally as a map
`String → Option SessionContext`; every operation threads the current
clock reading `now`. -/

structure ContextService where
  storage : String → Option SessionContext
  ttl : ℕ

/-- `ContextService(ttl_minutes=60)`. -/
def contextServiceInit (ttl_minutes : ℕ) : ContextService :=
  { storage := fun _ => none, ttl := ttl_minutes }

/-- `_cleanup_expired`: drop every entry with `now - last_updated > ttl`. -/
def cleanup_expired (svc : ContextService) (now : ℕ) : ContextService :=
  { svc with storage := fun sid =>
      match svc.storage sid with
      | some ctx => if svc.ttl < now - ctx.last_updated then none else some ctx
      | none => none }

/-- `get_context`: sweep expired entries, then return the stored context,
creating (and storing) a fresh default one when absent. -/
def get_context (svc : ContextService) (session_id : String) (now : ℕ) :
    SessionContext × ContextService :=
  let svc1 := cleanup_expired svc now
  match svc1.storage session_id with
  | some ctx => (ctx, svc1)
  | none =>
    let c := newSessionContext session_id now
    (c, { svc1 with storage := fun k => if k = session_id then some c else svc1.storage k })

/-- `save_context`: stamp `last_updated` with the current time and upsert. -/
def save_context (svc : ContextService) (ctx : SessionContext) (now : ℕ) : ContextService :=
  { svc with storage := fun k =>
      if k = ctx.session_id then some { ctx with last_updated := now } else svc.storage k }

/-- `update_context`: get, apply the field updates, stamp `last_updated`,
save. -/
def update_context (svc : ContextService) (session_id : String)
    (updates : SessionContext → SessionContext) (now : ℕ) :
    SessionContext × ContextService :=
  let r := get_context svc session_id now
  let ctx1 := { updates r.1 with last_updated := now }
  (ctx1, save_context r.2 ctx1 now)

/-- `clear_context`: delete the entry if present. -/
def clear_context (svc : ContextService) (session_id : String) : ContextService :=
  { svc with storage := fun k => if k = session_id then none else svc.storage k }

/-- `SessionContext.reset`. -/
def SessionContext.reset (ctx : SessionContext) (now : ℕ) : SessionContext :=
  { ctx with last_viewed_products := []
             selected_product_id := none
             pending_order_id := none
             conversation_state := .browsing
             last_updated := now }

/-- `reset_context`: get, reset in place, save. -/
def reset_context (svc : ContextService) (session_id : String) (now : ℕ) :
    SessionContext × ContextService :=
  let r := get_context svc session_id now
  let ctx1 := r.1.reset now
  (ctx1, save_context r.2 ctx1 now)

end LGE

namespace LGE

/-! ## Context-store lemmas -/

theorem cleanup_ttl (svc : ContextService) (now : ℕ) :
    (cleanup_expired svc now).ttl = svc.ttl := rfl

theorem cleanup_keeps_live (svc : ContextService) (now : ℕ) (sid : String)
    (ctx : SessionContext) (h : svc.storage sid = some ctx)
    (hlive : now - ctx.last_updated ≤ svc.ttl) :
    (cleanup_expired svc now).storage sid = some ctx := by
  unfold cleanup_expired
  simp [h, Nat.not_lt.mpr hlive]

theorem cleanup_mem_live (svc : ContextService) (now : ℕ) (sid : String)
    (ctx : SessionContext) (h : (cleanup_expired svc now).storage sid = some ctx) :
    svc.storage sid = some ctx ∧ ¬ svc.ttl < now - ctx.last_updated := by
  unfold cleanup_expired at h
  simp only at h
  rcases h0 : svc.storage sid with _ | c
  · rw [h0] at h; simp at h
  · rw [h0] at h
    by_cases hc : svc.ttl < now - c.last_updated
    · simp [hc] at h
    · simp [hc] at h
      subst h
      exact ⟨rfl, hc⟩

/-- Claim C8: `get(session_id)` never fails and, right after
`clear(session_id)` — or for a session id with no stored entry — returns
the default-valued context: no recently viewed products, no selected
product, no pending order, phase `browsing`. -/
theorem C8_get_default :
    (∀ svc session_id now,
        (get_context (clear_context svc session_id) session_id now).1 =
          newSessionContext session_id now) ∧
    (∀ svc session_id now, svc.storage session_id = none →
        (get_context svc session_id now).1 = newSessionContext session_id now) ∧
    (∀ session_id now,
        (newSessionContext session_id now).last_viewed_products = [] ∧
        (newSessionContext session_id now).selected_product_id = none ∧
        (newSessionContext session_id now).pending_order_id = none ∧
        (newSessionContext session_id now).conversation_state = .browsing) := by
  refine ⟨?_, ?_, fun _ _ => ⟨rfl, rfl, rfl, rfl⟩⟩
  · intro svc session_id now
    unfold get_context cleanup_expired clear_context
    simp
  · intro svc session_id now h
    unfold get_context cleanup_expired
    simp [h]

/-- Witness for C8 at concrete inputs. -/
theorem C8_get_default_witness :
    (get_context (contextServiceInit 60) "s2" 7).1 = newSessionContext "s2" 7 :=
  C8_get_default.2.1 (contextServiceInit 60) "s2" 7 rfl

/-- Claim C10: `get` never modifies a live stored context (any field,
`last_updated` included) and leaves the stored entry untouched; a second
`get` with no intervening `save` returns the same field values; only
`save` (and `update`, through it) stamp `last_updated` with the current
time — so repeated reads never extend a session's eviction lifetime. -/
theorem C10_get_is_read_only :
    (∀ svc session_id now ctx, svc.storage session_id = some ctx →
        now - ctx.last_updated ≤ svc.ttl →
        (get_context svc session_id now).1 = ctx ∧
        ((get_context svc session_id now).2).storage session_id = some ctx) ∧
    (∀ svc session_id now,
        (get_context ((get_context svc session_id now).2) session_id now).1 =
          (get_context svc session_id now).1) ∧
    (∀ svc ctx now,
        (save_context svc ctx now).storage ctx.session_id =
          some { ctx with last_updated := now }) ∧
    (∀ svc session_id updates now,
        (update_context svc session_id updates now).1.last_updated = now) := by
  refine ⟨?_, ?_, ?_, ?_⟩
  · intro svc session_id now ctx h hlive
    have hk := cleanup_keeps_live svc now session_id ctx h hlive
    unfold get_context
    simp [hk]
  · intro svc session_id now
    unfold get_context
    rcases h : (cleanup_expired svc now).storage session_id with _ | ctx
    · simp only [h]
      have h2 : (cleanup_expired
          { cleanup_expired svc now with storage := fun k =>
              if k = session_id then some (newSessionContext session_id now)
              else (cleanup_expired svc now).storage k } now).storage session_id =
          some (newSessionContext session_id now) := by
        unfold cleanup_expired
        simp [newSessionContext]
      simp [h2]
    · simp only [h]
      obtain ⟨h1, h2⟩ := cleanup_mem_live svc now session_id ctx h
      have h3 : (cleanup_expired (cleanup_expired svc now) now).storage session_id =
          some ctx := by
        unfold cleanup_expired
        simp only [h1]
        simp [h2]
      simp [h3]
  · intro svc ctx now
    unfold save_context
    simp
  · intro svc session_id updates now
    rfl

/-- Witness for C10 at concrete inputs. -/
theorem C10_get_is_read_only_witness :
    (get_context
        ⟨fun k => if k = "s1" then some (newSessionContext "s1" 10) else none, 60⟩
        "s1" 20).1 = newSessionContext "s1" 10 ∧
    ((get_context
        ⟨fun k => if k = "s1" then some (newSessionContext "s1" 10) else none, 60⟩
        "s1" 20).2).storage "s1" = some (newSessionContext "s1" 10) :=
  C10_get_is_read_only.1
    ⟨fun k => if k = "s1" then some (newSessionContext "s1" 10) else none, 60⟩
    "s1" 20 (newSessionContext "s1" 10) (by simp) (by norm_num [newSessionContext])

end LGE

namespace LGE

/-! ## Intent classification (`src/agents/intent_classifier.py`,
`src/models/enums.py`, `src/models/schemas.py`)

Messages are represented by their `content` strings.  The LLM call is an
oracle: it raises, or returns content whose `json.loads` result (after
`_extract_json_from_response` strips markdown fences) is a parse error or
a `Json` value. -/

/-- `IntentType` enum. -/
inductive IntentType
  | payment
  | faq
  | general
  | escalation
  | product_search
  | order
  | unknown
deriving Repr, DecidableEq

/-- `IntentClassification` schema (`confidence` constrained to `[0,1]` by
pydantic). -/
structure IntentClassification where
  intent : IntentType
  confidence : ℚ
  reasoning : Option String
deriving Repr, DecidableEq

def product_search_keywords : List String :=
  ["show me", "search for", "find me", "what products", "do you have", "i want to buy"]

def product_nouns : List String :=
  ["laptop", "phone", "iphone", "ipad", "book", "shoes", "headphone"]

def order_keywords : List String :=
  ["i want the", "i\x27ll take", "i want that", "i want this", "order the", "buy the"]

def selection_refs : List String :=
  ["first", "second", "third", "one", "that", "this", "#1", "#2", "#3"]

def payment_keywords : List String :=
  ["pay now", "i want to pay", "process payment", "make payment", "charge me"]

/-- First keyword rule: a product-search phrase together with "product" or
a product noun. -/
def product_search_rule (m : String) : Bool :=
  product_search_keywords.any (fun k => strContains m k) &&
    (strContains m "product" || product_nouns.any (fun p => strContains m p))

/-- Second keyword rule: an order phrase together with a selection
reference. -/
def order_selection_rule (m : String) : Bool :=
  order_keywords.any (fun k => strContains m k) &&
    selection_refs.any (fun r => strContains m r)

/-- Third keyword rule: a direct order-product phrase. -/
def order_product_rule (m : String) : Bool :=
  strContains m "i want product" || strContains m "order product"

/-- Fourth keyword rule: a payment phrase. -/
def payment_rule (m : String) : Bool :=
  payment_keywords.any (fun k => strContains m k)

/-- Disjunction of the cascade's rules (used to say "no rule fires"). -/
def keyword_rule_fires (m : String) : Bool :=
  product_search_rule m || order_selection_rule m || order_product_rule m || payment_rule m

/-- The classifier's LLM call as seen by `classify`: either the call
raises, or it returns content whose parse result is `none` (a
`json.JSONDecodeError`) or `some v`. -/
inductive LLMClassifyOutcome
  | raises
  | returns (parsed : Option Json)

/-- Result of `IntentClassifierAgent.process`: the raised `AgentError`, a
`model_dump_json()` serialization of a well-formed classification (the
keyword paths and the exception default), or the raw LLM content. -/
inductive ProcessOut
  | agentError
  | wellFormed (c : IntentClassification)
  | raw (parsed : Option Json)

structure ProcessStep where
  result : ProcessOut
  llm_invoked : Bool

/-- The four keyword classifications (confidence 0.95) and the
exception-path default produced inside `process`. -/
def kw_product_search : IntentClassification :=
  ⟨.product_search, 95/100, some "Keyword match: \x27show me/search/find\x27 + product name"⟩

def kw_order_selection : IntentClassification :=
  ⟨.order, 95/100, some "Keyword match: order with selection reference"⟩

def kw_order_product : IntentClassification :=
  ⟨.order, 95/100, some "Keyword match: order request"⟩

def kw_payment : IntentClassification :=
  ⟨.payment, 95/100, some "Keyword match: payment request"⟩

def default_llm_error : IntentClassification :=
  ⟨.general, 1/2, some "Classification failed, defaulting to GENERAL"⟩

/-- `IntentClassifierAgent.process`: raise on an empty message list; try
the four keyword rules in order on the lowered last message (each
returning confidence `0.95` without touching the LLM); otherwise call the
LLM, catching any exception into the GENERAL/0.5 default. -/
def classifier_process (messages : List String) (llm : LLMClassifyOutcome) : ProcessStep :=
  match messages.getLast? with
  | none => ⟨.agentError, false⟩
  | some user_message =>
    let m := strLower user_message
    if product_search_rule m then ⟨.wellFormed kw_product_search, false⟩
    else if order_selection_rule m then ⟨.wellFormed kw_order_selection, false⟩
    else if order_product_rule m then ⟨.wellFormed kw_order_product, false⟩
    else if payment_rule m then ⟨.wellFormed kw_payment, false⟩
    else
      match llm with
      | .raises => ⟨.wellFormed default_llm_error, true⟩
      | .returns parsed => ⟨.raw parsed, true⟩

/-- The `IntentType` enum's string values, as pydantic validation sees
them. -/
def intent_from_string (s : String) : Option IntentType :=
  if s = "payment" then some .payment
  else if s = "faq" then some .faq
  else if s = "general" then some .general
  else if s = "escalation" then some .escalation
  else if s = "product_search" then some .product_search
  else if s = "order" then some .order
  else if s = "unknown" then some .unknown
  else none

/-- Python-dict lookup on parsed JSON fields (later duplicates win, as in
`json.loads`). -/
def json_lookup (fields : List (String × Json)) (key : String) : Option Json :=
  (fields.reverse.find? (fun kv => kv.1 = key)).map (fun kv => kv.2)

/-- `IntentClassification(**result_dict)` after the source's lowering of a
string-valued `intent`: pydantic accepts a known intent string, a numeric
confidence within `[0,1]`, and an absent/null/string reasoning; anything
else raises a `ValidationError` (a `ValueError`), modelled as `none`. -/
def validate_classification (fields : List (String × Json)) : Option IntentClassification :=
  match json_lookup fields "intent" with
  | some (.jstr s) =>
    match intent_from_string (strLower s) with
    | some it =>
      match json_lookup fields "confidence" with
      | some (.jnum q) =>
        if 0 ≤ q ∧ q ≤ 1 then
          match json_lookup fields "reasoning" with
          | none => some ⟨it, q, none⟩
          | some .jnull => some ⟨it, q, none⟩
          | some (.jstr r) => some ⟨it, q, some r⟩
          | some _ => none
        else none
      | _ => none
    | none => none
  | _ => none

/-- How a `classify` call ends: a structured result, the `AgentError` for
an empty message list, or the uncaught `TypeError` hit when the parsed
model output is not a JSON object (`"intent" in result_dict` /
`IntentClassification(**result_dict)` on a non-mapping — not among the
caught `json.JSONDecodeError`/`ValueError`). -/
inductive ClassifyOut
  | ok (c : IntentClassification)
  | agentError
  | typeError
deriving Repr, DecidableEq

/-- The default returned when parsing the classification fails. -/
def default_parse_fail : IntentClassification :=
  ⟨.general, 1/2, some "Failed to parse classification result"⟩

/-- The parse-and-recover half of `classify`: a well-formed serialized
classification round-trips; a JSON decode error or a `ValidationError`
(`ValueError`) from an object-shaped dict is caught into the GENERAL/0.5
default; a non-object JSON value hits the uncaught `TypeError`. -/
def classify_parse (step : ProcessStep) : ClassifyOut × Bool :=
  match step.result with
  | .agentError => (.agentError, step.llm_invoked)
  | .wellFormed c => (.ok c, step.llm_invoked)
  | .raw none => (.ok default_parse_fail, step.llm_invoked)
  | .raw (some (.jobj fields)) =>
    match validate_classification fields with
    | some c => (.ok c, step.llm_invoked)
    | none => (.ok default_parse_fail, step.llm_invoked)
  | .raw (some _) => (.typeError, step.llm_invoked)

/-- `IntentClassifierAgent.classify`: run `process`, then parse its JSON
string result.  The Boolean records whether the LLM was invoked. -/
def classifier_classify (messages : List String) (llm : LLMClassifyOutcome) :
    ClassifyOut × Bool :=
  classify_parse (classifier_process messages llm)

end LGE


namespace LGE

/-! ## Classifier lemmas -/

theorem classify_parse_agentError_iff (step : ProcessStep) :
    (classify_parse step).1 = ClassifyOut.agentError ↔
      step.result = ProcessOut.agentError := by
  rcases step with ⟨res, b⟩
  rcases res with _ | c | p
  · simp [classify_parse]
  · simp [classify_parse]
  · rcases p with _ | j
    · simp [classify_parse]
    · rcases j with _ | bb | q | s | elems | fields <;> simp [classify_parse]
      rcases hv : validate_classification fields with _ | c <;> simp [hv]

theorem classifier_process_agentError_iff (messages : List String)
    (llm : LLMClassifyOutcome) :
    (classifier_process messages llm).result = ProcessOut.agentError ↔ messages = [] := by
  unfold classifier_process
  rcases hl : messages.getLast? with _ | last
  · simp [List.getLast?_eq_none_iff.mp hl]
  · have hne : messages ≠ [] := by rintro rfl; simp at hl
    simp only [hne, iff_false]
    by_cases h1 : product_search_rule (strLower last) <;>
      by_cases h2 : order_selection_rule (strLower last) <;>
      by_cases h3 : order_product_rule (strLower last) <;>
      by_cases h4 : payment_rule (strLower last) <;>
      rcases llm with _ | p <;>
      simp [h1, h2, h3, h4]

theorem classifier_process_result (messages : List String) (llm : LLMClassifyOutcome)
    (hne : messages ≠ []) :
    (∃ c, (classifier_process messages llm).result = ProcessOut.wellFormed c) ∨
    (∃ p, llm = LLMClassifyOutcome.returns p ∧
        (classifier_process messages llm).result = ProcessOut.raw p) := by
  unfold classifier_process
  rcases hl : messages.getLast? with _ | last
  · exact absurd (List.getLast?_eq_none_iff.mp hl) hne
  simp only [hl]
  by_cases h1 : product_search_rule (strLower last)
  · exact Or.inl ⟨kw_product_search, by simp [h1]⟩
  by_cases h2 : order_selection_rule (strLower last)
  · exact Or.inl ⟨kw_order_selection, by simp [h1, h2]⟩
  by_cases h3 : order_product_rule (strLower last)
  · exact Or.inl ⟨kw_order_product, by simp [h1, h2, h3]⟩
  by_cases h4 : payment_rule (strLower last)
  · exact Or.inl ⟨kw_payment, by simp [h1, h2, h3, h4]⟩
  rcases llm with _ | p
  · exact Or.inl ⟨default_llm_error, by simp [h1, h2, h3, h4]⟩
  · exact Or.inr ⟨p, rfl, by simp [h1, h2, h3, h4]⟩

theorem classifier_process_no_rule (messages : List String) (last : String)
    (llm : LLMClassifyOutcome) (hl : messages.getLast? = some last)
    (hf : keyword_rule_fires (strLower last) = false) :
    classifier_process messages llm =
      match llm with
      | .raises => ⟨.wellFormed default_llm_error, true⟩
      | .returns parsed => ⟨.raw parsed, true⟩ := by
  simp only [keyword_rule_fires, Bool.or_eq_false_iff] at hf
  obtain ⟨⟨⟨hf1, hf2⟩, hf3⟩, hf4⟩ := hf
  unfold classifier_process
  simp only [hl]
  simp [hf1, hf2, hf3, hf4]

/-- Claim C6 (counterexample): with a non-empty message list and model
output that parses to a JSON array (malformed structure), `classify`
raises an uncaught `TypeError` rather than returning the GENERAL/0.5
default. -/
theorem C6_typeerror_counterexample :
    (classifier_classify ["hello"] (.returns (some (.jarr [])))).1 =
      ClassifyOut.typeError := by decide

/-- Claim C6 (amended): `classify` raises `AgentError` exactly on an
empty message list; for a non-empty list it never raises when the model
output is unparseable JSON or parses to a JSON object — out-of-enum or
otherwise invalid object fields fall back to GENERAL/0.5 with a
reasoning recording the failure, as does an exception in the model call
itself; but model output parsing to a non-object JSON value hits an
uncaught `TypeError`. -/
theorem C6_error_behavior :
    (∀ messages llm,
        (classifier_classify messages llm).1 = ClassifyOut.agentError ↔ messages = []) ∧
    (∀ messages llm, messages ≠ [] →
        (llm = LLMClassifyOutcome.raises ∨ llm = LLMClassifyOutcome.returns none ∨
          ∃ fields, llm = LLMClassifyOutcome.returns (some (.jobj fields))) →
        ∃ c, (classifier_classify messages llm).1 = ClassifyOut.ok c) ∧
    (∀ messages last fields, messages.getLast? = some last →
        keyword_rule_fires (strLower last) = false →
        validate_classification fields = none →
        (classifier_classify messages (.returns (some (.jobj fields)))).1 =
          ClassifyOut.ok default_parse_fail) ∧
    (∀ messages last, messages.getLast? = some last →
        keyword_rule_fires (strLower last) = false →
        (classifier_classify messages .raises).1 = ClassifyOut.ok default_llm_error) := by
  refine ⟨?_, ?_, ?_, ?_⟩
  · intro messages llm
    exact (classify_parse_agentError_iff (classifier_process messages llm)).trans
      (classifier_process_agentError_iff messages llm)
  · intro messages llm hne hsh
    unfold classifier_classify
    rcases classifier_process_result messages llm hne with ⟨c, hc⟩ | ⟨p, rfl, hp⟩
    · exact ⟨c, by unfold classify_parse; rw [hc]⟩
    · rcases hsh with h | h | ⟨fields, h⟩
      · exact absurd h.symm (by simp)
      · injection h with h2
        subst h2
        exact ⟨default_parse_fail, by simp [classify_parse, hp]⟩
      · injection h with h2
        subst h2
        rcases hv : validate_classification fields with _ | c
        · exact ⟨default_parse_fail, by simp [classify_parse, hp, hv]⟩
        · exact ⟨c, by simp [classify_parse, hp, hv]⟩
  · intro messages last fields hl hf hv
    unfold classifier_classify
    rw [classifier_process_no_rule messages last _ hl hf]
    unfold classify_parse
    simp [hv]
  · intro messages last hl hf
    unfold classifier_classify
    rw [classifier_process_no_rule messages last _ hl hf]
    rfl

/-- Witness for C6 at concrete inputs. -/
theorem C6_error_behavior_witness :
    (classifier_classify [] .raises).1 = ClassifyOut.agentError ∧
    (∃ c, (classifier_classify ["hi"] .raises).1 = ClassifyOut.ok c) ∧
    (classifier_classify ["hi"] (.returns (some (.jobj [("intent", .jstr "pizza")])))).1 =
      ClassifyOut.ok default_parse_fail ∧
    (classifier_classify ["hi"] .raises).1 = ClassifyOut.ok default_llm_error :=
  ⟨(C6_error_behavior.1 [] .raises).mpr rfl,
   C6_error_behavior.2.1 ["hi"] .raises (by decide) (Or.inl rfl),
   C6_error_behavior.2.2.1 ["hi"] "hi" [("intent", .jstr "pizza")] rfl (by decide) rfl,
   C6_error_behavior.2.2.2 ["hi"] "hi" rfl (by decide)⟩

end LGE

namespace LGE

/-- Claim C7 (counterexample): the keyword rules form an ordered cascade;
the message "show me laptop pay now" contains "pay now", yet the earlier
product-search rule fires first and classify returns product_search with
confidence 0.95, not the payment intent the claim maps "pay now" to. -/
theorem C7_cascade_counterexample :
    strContains (strLower "show me laptop pay now") "pay now" = true ∧
    classifier_classify ["show me laptop pay now"] .raises =
      (ClassifyOut.ok kw_product_search, false) ∧
    kw_product_search.intent ≠ IntentType.payment := by
  exact ⟨by decide, rfl, by decide⟩

/-- Claim C7 (amended): the cascade returns the first matching rule's
intent.  Whenever the lowered last message contains "pay now" the payment
rule fires; if no earlier rule (product-search, order-with-selection,
order-product) matches, classify returns payment with confidence 0.95,
for every LLM behavior and without invoking the model; any matching rule
likewise yields a 0.95-confidence keyword intent without a model call. -/
theorem C7_keyword_payment :
    (∀ m, strContains m "pay now" = true → payment_rule m = true) ∧
    (∀ messages last llm, messages.getLast? = some last →
        product_search_rule (strLower last) = false →
        order_selection_rule (strLower last) = false →
        order_product_rule (strLower last) = false →
        payment_rule (strLower last) = true →
        classifier_classify messages llm = (ClassifyOut.ok kw_payment, false)) ∧
    (∀ messages last llm, messages.getLast? = some last →
        keyword_rule_fires (strLower last) = true →
        (classifier_classify messages llm).2 = false ∧
        ∃ c, (classifier_classify messages llm).1 = ClassifyOut.ok c ∧
          c.confidence = 95/100) ∧
    kw_payment.intent = IntentType.payment := by
  refine ⟨?_, ?_, ?_, rfl⟩
  · intro m h
    simp [payment_rule, payment_keywords, h]
  · intro messages last llm hl h1 h2 h3 h4
    unfold classifier_classify classifier_process
    simp only [hl]
    simp [h1, h2, h3, h4, classify_parse]
  · intro messages last llm hl hf
    unfold classifier_classify classifier_process
    simp only [hl]
    by_cases h1 : product_search_rule (strLower last)
    · exact ⟨by simp [h1, classify_parse],
        kw_product_search, by simp [h1, classify_parse], rfl⟩
    by_cases h2 : order_selection_rule (strLower last)
    · exact ⟨by simp [h1, h2, classify_parse],
        kw_order_selection, by simp [h1, h2, classify_parse], rfl⟩
    by_cases h3 : order_product_rule (strLower last)
    · exact ⟨by simp [h1, h2, h3, classify_parse],
        kw_order_product, by simp [h1, h2, h3, classify_parse], rfl⟩
    by_cases h4 : payment_rule (strLower last)
    · exact ⟨by simp [h1, h2, h3, h4, classify_parse],
        kw_payment, by simp [h1, h2, h3, h4, classify_parse], rfl⟩
    · simp [keyword_rule_fires, h1, h2, h3, h4] at hf

/-- Witness for C7 at concrete inputs. -/
theorem C7_keyword_payment_witness :
    payment_rule "pay now please" = true ∧
    classifier_classify ["Pay now please"] .raises = (ClassifyOut.ok kw_payment, false) :=
  ⟨C7_keyword_payment.1 "pay now please" (by decide),
   C7_keyword_payment.2.1 ["Pay now please"] "Pay now please" .raises rfl
     (by decide) (by decide) (by decide) (by decide)⟩

end LGE

namespace LGE

/-! ## Python exceptions and the dispatch graph (`src/graphs/nodes.py`,
`src/graphs/chat_workflow.py`, `src/api/routes/chat.py`)

Handler-agent work is passed in as an `Except PyExc String` outcome; the
node functions add the `try/except` fallback behavior of the source.  The
compiled graph runs `classify_intent` and then exactly one handler node;
LangGraph propagates a node's uncaught exception to `ainvoke`'s caller. -/

inductive PyExc
  | nameError
  | attributeError
  | agentError
  | other
deriving Repr, DecidableEq

/-- `str(e)` renderings used in error strings. -/
def render_exc : PyExc → String
  | .nameError => "name \x27EscalationAgent\x27 is not defined"
  | .attributeError => "AWAITING_PAYMENT"
  | .agentError => "No messages provided"
  | .other => "error"

/-- The names imported (or defined at module level) in
`src/graphs/nodes.py`.  `EscalationAgent` is absent — `escalation.py` is
never imported there — although `escalation_node` references the name. -/
def nodes_module_names : List String :=
  ["Any", "Dict", "AIMessage", "HumanMessage", "ConversationAgent", "FAQAgent",
   "IntentClassifierAgent", "OrderAgent", "PaymentAgent", "ProductSearchAgent",
   "get_logger", "IntentType", "get_context_service", "LLMService", "ChatState",
   "logger", "context_service"]

/-- `classify_intent_node`: any exception from `classify` is caught and
defaulted to GENERAL/0.5. -/
def classify_intent_node (classification : Except PyExc (IntentType × ℚ)) :
    IntentType × ℚ :=
  match classification with
  | .ok c => c
  | .error _ => (.general, 1/2)

def conversation_node (agent : Except PyExc String) : Except PyExc String :=
  match agent with
  | .ok r => .ok r
  | .error _ => .ok "I apologize, but I encountered an error. Please try again."

def payment_node (agent : Except PyExc String) : Except PyExc String :=
  match agent with
  | .ok r => .ok r
  | .error _ => .ok "Payment processing failed. Please try again."

def faq_node (agent : Except PyExc String) : Except PyExc String :=
  match agent with
  | .ok r => .ok r
  | .error _ => .ok "I couldn\x27t find an answer to your question. Please contact support."

/-- `escalation_node`: the `EscalationAgent(...)` construction stands
before the `try` block, and the name is looked up in the module
namespace; an unknown name raises `NameError`, which nothing catches —
the node's own fallback is dead code. -/
def escalation_node (agent : Except PyExc String) : Except PyExc String :=
  if nodes_module_names.contains "EscalationAgent" then
    match agent with
    | .ok r => .ok r
    | .error _ => .ok "I\x27ll connect you with our support team. Please hold on."
  else .error .nameError

def product_search_node (agent : Except PyExc String) : Except PyExc String :=
  match agent with
  | .ok r => .ok r
  | .error _ => .ok "I encountered an error while searching for products. Please try again."

def order_node (agent : Except PyExc String) : Except PyExc String :=
  match agent with
  | .ok r => .ok r
  | .error _ => .ok "I encountered an error while creating your order. Please try again."

/-- `order_node`'s session-context effect (lines 266-272): when the agent
left an `order_id` in the shared context, store it as the pending order
and move the conversation to ORDERED. -/
def order_node_context_update (order_id : Option String) (sc : SessionContext) :
    SessionContext :=
  match order_id with
  | some oid => { sc with pending_order_id := some oid, conversation_state := .ordered }
  | none => sc

/-- `route_by_intent`. -/
def route_by_intent (intent : IntentType) : String :=
  match intent with
  | .payment => "payment"
  | .faq => "faq"
  | .escalation => "escalation"
  | .product_search => "product_search"
  | .order => "order"
  | _ => "conversation"

/-- Outcomes of the six handler agents' `process` calls for one request. -/
structure HandlerOutcomes where
  conversation : Except PyExc String
  payment : Except PyExc String
  faq : Except PyExc String
  escalation : Except PyExc String
  product_search : Except PyExc String
  order : Except PyExc String

/-- `workflow.ainvoke`: classify, route, run the one handler node; an
uncaught node exception propagates. -/
def chat_workflow_invoke (classification : Except PyExc (IntentType × ℚ))
    (h : HandlerOutcomes) : Except PyExc (IntentType × String) :=
  let intent := (classify_intent_node classification).1
  let node := route_by_intent intent
  let res :=
    if node = "payment" then payment_node h.payment
    else if node = "faq" then faq_node h.faq
    else if node = "escalation" then escalation_node h.escalation
    else if node = "product_search" then product_search_node h.product_search
    else if node = "order" then order_node h.order
    else conversation_node h.conversation
  res.map (fun r => (intent, r))

structure ChatHTTP where
  status : ℕ
  message : String
deriving Repr, DecidableEq

/-- `POST /chat/` (`src/api/routes/chat.py`): a completed run answers
HTTP 200 with the final response (every handler node produces one); any
exception escaping the workflow becomes
`HTTPException(status_code=500, detail=f"Chat processing failed: {e}")`. -/
def chat_route (graph_result : Except PyExc (IntentType × String)) : ChatHTTP :=
  match graph_result with
  | .ok r => ⟨200, r.2⟩
  | .error e => ⟨500, "Chat processing failed: " ++ render_exc e⟩

end LGE

namespace LGE

/-- Handler outcomes where every agent call succeeds. -/
def all_ok_handlers : HandlerOutcomes :=
  ⟨.ok "conv", .ok "paid", .ok "faq answer", .ok "escalated", .ok "found", .ok "ordered"⟩

/-- Handler outcomes where the payment agent raises. -/
def payment_fails_handlers : HandlerOutcomes :=
  ⟨.ok "conv", .error .other, .ok "faq answer", .ok "escalated", .ok "found", .ok "ordered"⟩

/-- Claim C1: evaluation at the failing input.  `EscalationAgent` is not
among `nodes.py`'s names, so a request routed to the escalation handler
raises `NameError` before the node's `try`; the graph propagates it and
the chat route answers HTTP 500 — not 200 with a fallback message as
claimed.  The other parts of the claim do hold: an exception inside
`classify` falls back to the conversation handler with HTTP 200, and a
handler such as payment that raises inside its node is caught and
answered 200 with the fixed fallback text. -/
theorem C1_escalation_propagates :
    nodes_module_names.contains "EscalationAgent" = false ∧
    chat_workflow_invoke (.ok (.escalation, 9/10)) all_ok_handlers =
      Except.error PyExc.nameError ∧
    chat_route (chat_workflow_invoke (.ok (.escalation, 9/10)) all_ok_handlers) =
      ⟨500, "Chat processing failed: name \x27EscalationAgent\x27 is not defined"⟩ ∧
    chat_route (chat_workflow_invoke (.error .other) all_ok_handlers) = ⟨200, "conv"⟩ ∧
    chat_route (chat_workflow_invoke (.ok (.payment, 9/10)) payment_fails_handlers) =
      ⟨200, "Payment processing failed. Please try again."⟩ := by
  refine ⟨by decide, rfl, rfl, rfl, rfl⟩

end LGE

namespace LGE

/-! ## Payment agent (`src/agents/payment.py`, `src/database/models.py`,
`src/models/enums.py`, `src/tools/payment_processor.py`) -/

/-- `OrderStatus` enum of `src/database/models.py`.  Note: it has no
`AWAITING_PAYMENT` member, although `payment.py` references one. -/
inductive OrderStatus
  | pending
  | confirmed
  | paid
  | shipped
  | delivered
  | cancelled
deriving Repr, DecidableEq

/-- Python attribute access `OrderStatus.<attr>`: a missing member raises
`AttributeError`. -/
def order_status_attr (attr : String) : Except PyExc OrderStatus :=
  if attr = "PENDING" then .ok .pending
  else if attr = "CONFIRMED" then .ok .confirmed
  else if attr = "PAID" then .ok .paid
  else if attr = "SHIPPED" then .ok .shipped
  else if attr = "DELIVERED" then .ok .delivered
  else if attr = "CANCELLED" then .ok .cancelled
  else .error .attributeError

structure OrderItem where
  product_name : String
  quantity : ℕ
  subtotal : ℚ
deriving Repr, DecidableEq

structure Order where
  id : String
  status : OrderStatus
  total : ℚ
  items : List OrderItem
deriving Repr, DecidableEq

/-- `PaymentStatus` enum. -/
inductive PaymentStatus
  | pending
  | processing
  | completed
  | failed
  | cancelled
deriving Repr, DecidableEq

/-- `PaymentStatus.<member>.value`. -/
def payment_status_value : PaymentStatus → String
  | .pending => "pending"
  | .processing => "processing"
  | .completed => "completed"
  | .failed => "failed"
  | .cancelled => "cancelled"

/-- The slice of `PaymentResponse` the agent's response text uses. -/
structure PaymentResponse where
  transaction_id : String
  status : PaymentStatus
deriving Repr, DecidableEq

/-- `PaymentProcessor.process_payment` stores and returns a PENDING
payment whenever it succeeds. -/
def processor_response (transaction_id : String) : PaymentResponse :=
  ⟨transaction_id, .pending⟩

/-- Python's `str.upper()` (ASCII). -/
def strUpper (s : String) : String := String.mk (s.toList.map Char.toUpper)

/-- Python's `f"{x:.2f}"` on a non-negative amount, rendered to cents
(rounding at the half-cent; the claims never depend on tie behavior). -/
def render2 (q : ℚ) : String :=
  let cents := ((q.num * 200 + (q.den : ℤ)) / (2 * (q.den : ℤ))).toNat
  let whole := cents / 100
  let frac := cents % 100
  toString whole ++ "." ++ (if frac < 10 then "0" else "") ++ toString frac

/-- Characters matched by `[a-f0-9]`. -/
def is_ord_char (c : Char) : Bool :=
  (decide ('a' ≤ c) && decide (c ≤ 'f')) || (decide ('0' ≤ c) && decide (c ≤ '9'))

/-- Greedy run of `[a-f0-9]` characters. -/
def take_hex : List Char → List Char
  | [] => []
  | c :: cs => if is_ord_char c then c :: take_hex cs else []

/-- `re.search(r"ord_[a-f0-9]+", m)`: leftmost match, greedy `+`. -/
def find_order_id : List Char → Option String
  | [] => none
  | c :: cs =>
    if chPre ['o', 'r', 'd', '_'] (c :: cs) then
      let hex := take_hex ((c :: cs).drop 4)
      if hex.isEmpty then find_order_id cs
      else some (String.mk (['o', 'r', 'd', '_'] ++ hex))
    else find_order_id cs

/-- The success response built by `PaymentAgent._process_order_payment`. -/
def order_payment_success_response (order_id : String) (order : Order)
    (result : PaymentResponse) : String :=
  "✅ **Yêu cầu thanh toán đã được tạo!**\n\n" ++
  "**Thông tin đơn hàng:**\n" ++
  "- Mã đơn hàng: `" ++ order_id ++ "`\n" ++
  "- Trạng thái: **CHỜ THANH TOÁN** ⏳\n\n" ++
  "**Thông tin thanh toán:**\n" ++
  "- Mã giao dịch: `" ++ result.transaction_id ++ "`\n" ++
  "- Số tiền: **$" ++ render2 order.total ++ "** USD\n" ++
  "- Trạng thái: " ++ strUpper (payment_status_value result.status) ++ "\n\n" ++
  "**Sản phẩm:**\n" ++
  String.join (order.items.map (fun item =>
    "- " ++ item.product_name ++ " x" ++ toString item.quantity ++ " = $" ++
      render2 item.subtotal ++ "\n")) ++
  "\n**Tổng cộng: $" ++ render2 order.total ++ "**\n\n" ++
  "📱 Vui lòng quét mã QR để hoàn tất thanh toán.\n" ++
  "Sau khi thanh toán thành công, đơn hàng sẽ được tự động cập nhật."

/-- `PaymentAgent._process_order_payment`: look the order up, compare its
status against `OrderStatus.PAID` and then against the non-existent
`OrderStatus.AWAITING_PAYMENT` (an `AttributeError`), then create the
payment and build the success response.  The order-status database update
is an external write with no bearing on the returned string. -/
def process_order_payment (get_order : String → Option Order)
    (transaction_id : String) (order_id : String) : Except PyExc String := do
  match get_order order_id with
  | none => return "❌ Order " ++ order_id ++ " not found. Please check the order ID."
  | some order =>
    let paid_member ← order_status_attr "PAID"
    if order.status = paid_member then
      return "ℹ️ Order " ++ order_id ++ " has already been paid."
    else
      let awaiting_member ← order_status_attr "AWAITING_PAYMENT"
      if order.status = awaiting_member then
        return "⏳ Order " ++ order_id ++ " is already awaiting payment.\n\n" ++
          "A payment request has been created for this order.\n" ++
          "Please complete the pending payment or contact support if you need assistance."
      else
        return order_payment_success_response order_id order
          (processor_response transaction_id)

/-- What `PaymentAgent.process` leaves behind: the returned text and the
(possibly mutated) session context. -/
structure PaymentProcessOutcome where
  response : String
  session_ctx : Option SessionContext

/-- `PaymentAgent.process`: raise `AgentError` on an empty message list;
take an order id from the message's `ord_...` pattern, else the context's
`order_id`, else the session's `pending_order_id`.  With an order id, run
the order payment inside the `try` — any exception becomes the "Payment
processing failed: ..." text — and clear `pending_order_id` (and complete
the conversation) only when the lowered response contains "successful".
The no-order-id branch (`_process_regular_payment`) is outside every
claim and is passed in as the `regular` collaborator. -/
def payment_agent_process (get_order : String → Option Order) (transaction_id : String)
    (regular : String → String) (messages : List String) (ctx_order_id : Option String)
    (session_ctx : Option SessionContext) : Except PyExc PaymentProcessOutcome :=
  match messages.getLast? with
  | none => .error .agentError
  | some user_message =>
    let m := strLower user_message
    let order_id :=
      match find_order_id m.toList with
      | some oid => some oid
      | none =>
        match ctx_order_id with
        | some oid => some oid
        | none =>
          match session_ctx with
          | some sc => sc.pending_order_id
          | none => none
    match order_id with
    | some oid =>
      match process_order_payment get_order transaction_id oid with
      | .error e =>
        .ok ⟨"Payment processing failed: " ++ render_exc e ++ ". Please try again.",
          session_ctx⟩
      | .ok result =>
        let session_ctx1 :=
          match session_ctx with
          | some sc =>
            if strContains (strLower result) "successful" then
              some { sc with pending_order_id := none, conversation_state := .completed }
            else some sc
          | none => none
        .ok ⟨result, session_ctx1⟩
    | none => .ok ⟨regular user_message, session_ctx⟩

end LGE

namespace LGE

/-- A pending order and a session holding it, for evaluating the payment
path. -/
def orderC2 : Order := ⟨"ord_1a", .pending, 100, [⟨"Laptop", 1, 100⟩]⟩

def get_orderC2 : String → Option Order :=
  fun oid => if oid = "ord_1a" then some orderC2 else none

def scC2 : SessionContext :=
  { session_id := "s1"
    last_viewed_products := []
    selected_product_id := none
    pending_order_id := some "ord_1a"
    conversation_state := .ordered
    last_updated := 0 }

set_option maxRecDepth 8192 in
/-- Claim C2: evaluation at the failing input, plus the two reasons the
clearing can never happen.  (1) For every order found in any state other
than PAID, `_process_order_payment` raises `AttributeError` on the
non-existent `OrderStatus.AWAITING_PAYMENT`, so "pay now" against a
pending order yields the failure text and the session keeps its
`pending_order_id` untouched.  (2) Even the (unreachable) success
response never contains the substring "successful" that the clearing
condition tests for.  `order_node` does set `pending_order_id` on order
creation, as the claim says. -/
theorem C2_pending_never_cleared :
    (∀ get_order transaction_id order_id order,
        get_order order_id = some order → order.status ≠ OrderStatus.paid →
        process_order_payment get_order transaction_id order_id =
          .error .attributeError) ∧
    payment_agent_process get_orderC2 "txn_9f" (fun _ => "") ["pay now"] none
        (some scC2) =
      .ok ⟨"Payment processing failed: AWAITING_PAYMENT. Please try again.",
        some scC2⟩ ∧
    scC2.pending_order_id = some "ord_1a" ∧
    strContains
      (strLower (order_payment_success_response "ord_1a" orderC2
        (processor_response "txn_9f"))) "successful" = false ∧
    (order_node_context_update (some "ord_1a")
        (newSessionContext "s1" 0)).pending_order_id = some "ord_1a" := by
  refine ⟨?_, rfl, rfl, by decide, rfl⟩
  intro get_order transaction_id order_id order hfound hnp
  unfold process_order_payment order_status_attr
  simp only [hfound]
  simp [Except.bind, bind, pure, Except.pure, hnp]

/-- Witness for C2 at concrete inputs. -/
theorem C2_pending_never_cleared_witness :
    process_order_payment get_orderC2 "txn_9f" "ord_1a" =
      Except.error PyExc.attributeError :=
  C2_pending_never_cleared.1 get_orderC2 "txn_9f" "ord_1a" orderC2 (by decide) (by decide)

end LGE
